import Mathlib

/-!
Verification of the ICT trading agent core against its specification.

The development shallowly embeds the core of the repository in Lean:

* `src/pattern_detector.py` — `PatternDetector.detect_fair_value_gaps`,
  `detect_order_blocks`, `detect_liquidity_pools` and their strength helpers;
* `src/ict_agent.py` — `ICTTradingAgent.generate_signals` together with
  `_identify_swing_points`, `_determine_trend`, `_is_valid_fvg_signal`,
  `_is_valid_orderblock_signal` and `_calculate_signal_strength`;
* `src/risk_manager.py` — `RiskManager.calculate_position_size`,
  `validate_trade` and `_calculate_portfolio_risk`;
* `src/backtester.py` — `Backtester.run_backtest` with `_check_exit_signal`,
  `_calculate_position_size` and `_calculate_pnl`.

Python floats are modelled as exact rationals (ℚ), pandas DataFrames as
`List Bar`, and dictionaries as structures.  Python-specific semantics that
the code relies on are modelled explicitly: `int()` truncation toward zero
(`pyInt`), `x or y` falsy fallback (`pyOrQ`, `pyOrList`), slice semantics of
`df.iloc[a:b]` including the negative-start wrap-around (`pySlice`), the mean
of an empty slice being NaN — every comparison with which is false
(`pyMean` returning `Option`), and the substring test `s1 in s2` on strings
(`pyInStr`).

The two data fetches that the Python code performs through `DataHandler`
(`get_historical_data` inside `run_backtest`, and `get_price_data` inside
each of the agent's `detect_*`/`analyze_market_structure` calls) are external
collaborators; they are modelled as explicit inputs (`dfBars` for the
backtest series, `agentBars` for the series the agent fetches — the agent
re-fetches the same series on every call within a run).  `datetime.now()`
is modelled as an explicit parameter `now`.
-/

/-- Python `int(q)` on a float: truncation toward zero. -/
def pyInt (q : ℚ) : ℤ := q.num.tdiv q.den

/-- Python `x or default` for an optional float argument: `None` and `0`
are falsy and fall back to the default. -/
def pyOrQ (x : Option ℚ) (d : ℚ) : ℚ :=
  match x with
  | none => d
  | some v => if v = 0 then d else v

/-- Normalise one endpoint of a Python slice `l[a:b]`: a negative index
counts from the end, and the result is clamped into `[0, len]`. -/
def pySliceIdx (len : ℕ) (x : ℤ) : ℕ :=
  let y := if x < 0 then x + len else x
  (max 0 (min y len)).toNat

/-- Python slice `l[a:b]` (as used by `df.iloc[a:b]`), including the
wrap-around of negative endpoints. -/
def pySlice {α : Type} (l : List α) (a b : ℤ) : List α :=
  let s := pySliceIdx l.length a
  let e := pySliceIdx l.length b
  (l.drop s).take (e - s)

/-- Mean of a pandas Series; `none` models the NaN returned for an empty
slice (any comparison against which is false). -/
def pyMean (l : List ℚ) : Option ℚ :=
  if l.isEmpty then none else some (l.foldl (· + ·) 0 / l.length)

/-- Python `min` over a nonempty list of floats (the empty case cannot be
reached by the embedded call sites). -/
def pyListMin : List ℚ → ℚ
  | [] => 0
  | x :: xs => xs.foldl min x

/-- Python `max` over a nonempty list of floats. -/
def pyListMax : List ℚ → ℚ
  | [] => 0
  | x :: xs => xs.foldl max x

/-- Python substring test `needle in hay` on strings, over explicit
character lists. -/
def pyInStr (needle hay : List Char) : Bool := decide (needle <:+: hay)

/-- One OHLCV bar (a row of the pandas DataFrame).  `ts` models the
DataFrame index (`df.index[i]`). -/
structure Bar where
  ts : ℕ
  open_ : ℚ
  high : ℚ
  low : ℚ
  close : ℚ
  volume : ℚ
deriving DecidableEq, Repr, Inhabited

/-- The direction strings used by the Python code.  Patterns and signals
carry `BULLISH`/`BEARISH`; the backtester compares positions against
`LONG`/`SHORT`. -/
inductive PyDir where
  | BULLISH
  | BEARISH
  | LONG
  | SHORT
deriving DecidableEq, Repr, Inhabited

/-- The character content of a direction string (already upper case, so
`.upper()` is the identity on it). -/
def dirChars : PyDir → List Char
  | .BULLISH => ['B', 'U', 'L', 'L', 'I', 'S', 'H']
  | .BEARISH => ['B', 'E', 'A', 'R', 'I', 'S', 'H']
  | .LONG => ['L', 'O', 'N', 'G']
  | .SHORT => ['S', 'H', 'O', 'R', 'T']

/-- Trend classification strings produced by `_determine_trend`. -/
inductive Trend where
  | UPTREND
  | DOWNTREND
  | SIDEWAYS
deriving DecidableEq, Repr, Inhabited

/-- The character content of a trend string. -/
def trendChars : Trend → List Char
  | .UPTREND => ['U', 'P', 'T', 'R', 'E', 'N', 'D']
  | .DOWNTREND => ['D', 'O', 'W', 'N', 'T', 'R', 'E', 'N', 'D']
  | .SIDEWAYS => ['S', 'I', 'D', 'E', 'W', 'A', 'Y', 'S']

/-- A Fair Value Gap record as built by
`PatternDetector.detect_fair_value_gaps` (`src/pattern_detector.py`,
lines 60-95).  The constant `type: 'Fair Value Gap'` field is implicit in
the record type. -/
structure FVGPattern where
  direction : PyDir
  ts : ℕ
  gapHigh : ℚ
  gapLow : ℚ
  gapSize : ℚ
  entryPrice : ℚ
  stopLoss : ℚ
  takeProfit : ℚ
  strength : ℚ
  filled : Bool
deriving DecidableEq, Repr, Inhabited

/-- `PatternDetector._calculate_fvg_strength` (`src/pattern_detector.py`,
lines 226-245).  The `'Volume' in df.columns` test is always true in this
model since `Bar` always carries volume. -/
def calcFvgStrength (bars : List Bar) (index : ℕ) (gapSize : ℚ) : ℚ :=
  let strength := min (gapSize * 100) (1/2)
  let strength :=
    if index < bars.length then
      match pyMean ((pySlice bars ((index : ℤ) - 10) (index : ℤ)).map Bar.volume) with
      | some avgVolume =>
          if (bars.getD index default).volume > avgVolume * (3/2) then
            strength + 1/5
          else strength
      | none => strength
    else strength
  let strength :=
    if 3 ≤ index then
      let recentCloses := (pySlice bars ((index : ℤ) - 3) ((index : ℤ) + 1)).map Bar.close
      if 3 ≤ recentCloses.length then
        let c0 := recentCloses.headD 0
        let cLast := recentCloses.getLastD 0
        strength + |(cLast - c0) / c0| * 5
      else strength
    else strength
  min strength 1

/-- The body of the `detect_fair_value_gaps` loop at index `i`
(`src/pattern_detector.py`, lines 48-95): the bullish branch, the `elif`
bearish branch, or no emission. -/
def fvgAt (minGapSize : ℚ) (bars : List Bar) (i : ℕ) : Option FVGPattern :=
  let prevCandle := bars.getD (i - 1) default
  let currentCandle := bars.getD i default
  let nextCandle := bars.getD (i + 1) default
  if prevCandle.low > nextCandle.high ∧ currentCandle.close > currentCandle.open_ then
    let gapSize := (prevCandle.low - nextCandle.high) / nextCandle.high
    if gapSize ≥ minGapSize then
      some { direction := .BULLISH
             ts := currentCandle.ts
             gapHigh := prevCandle.low
             gapLow := nextCandle.high
             gapSize := gapSize
             entryPrice := nextCandle.high
             stopLoss := prevCandle.low - prevCandle.low * (1/1000)
             takeProfit := prevCandle.low + gapSize * prevCandle.low * 2
             strength := calcFvgStrength bars i gapSize
             filled := false }
    else none
  else if prevCandle.high < nextCandle.low ∧ currentCandle.close < currentCandle.open_ then
    let gapSize := (nextCandle.low - prevCandle.high) / prevCandle.high
    if gapSize ≥ minGapSize then
      some { direction := .BEARISH
             ts := currentCandle.ts
             gapHigh := nextCandle.low
             gapLow := prevCandle.high
             gapSize := gapSize
             entryPrice := prevCandle.high
             stopLoss := nextCandle.low + nextCandle.low * (1/1000)
             takeProfit := nextCandle.low - gapSize * nextCandle.low * 2
             strength := calcFvgStrength bars i gapSize
             filled := false }
    else none
  else none

/-- `PatternDetector.detect_fair_value_gaps` (`src/pattern_detector.py`,
lines 28-97): guard `len(df) < 3`, then the loop `for i in
range(1, len(df) - 1)`. -/
def detect_fair_value_gaps (minGapSize : ℚ) (bars : List Bar) : List FVGPattern :=
  if bars.length < 3 then []
  else (List.range' 1 (bars.length - 2)).filterMap (fvgAt minGapSize bars)

/-- An Order Block record as built by `PatternDetector.detect_order_blocks`
(`src/pattern_detector.py`, lines 125-156). -/
structure OrderBlockPattern where
  direction : PyDir
  ts : ℕ
  blockHigh : ℚ
  blockLow : ℚ
  entryPrice : ℚ
  stopLoss : ℚ
  takeProfit : ℚ
  strength : ℚ
  tested : Bool
deriving DecidableEq, Repr, Inhabited

/-- `PatternDetector._is_strong_bullish_move` (`src/pattern_detector.py`,
lines 271-278). -/
def isStrongBullishMove (bars : List Bar) (index : ℕ) (minStrength : ℕ) : Bool :=
  if index < minStrength ∨ bars.length ≤ index then false
  else
    let closes := (pySlice bars ((index : ℤ) - minStrength) ((index : ℤ) + 1)).map Bar.close
    (List.range' 1 (closes.length - 1)).all fun i =>
      decide (closes.getD (i - 1) 0 < closes.getD i 0)

/-- `PatternDetector._is_strong_bearish_move` (`src/pattern_detector.py`,
lines 280-287). -/
def isStrongBearishMove (bars : List Bar) (index : ℕ) (minStrength : ℕ) : Bool :=
  if index < minStrength ∨ bars.length ≤ index then false
  else
    let closes := (pySlice bars ((index : ℤ) - minStrength) ((index : ℤ) + 1)).map Bar.close
    (List.range' 1 (closes.length - 1)).all fun i =>
      decide (closes.getD i 0 < closes.getD (i - 1) 0)

/-- `PatternDetector._calculate_orderblock_strength`
(`src/pattern_detector.py`, lines 247-269). -/
def calcOrderblockStrength (bars : List Bar) (index : ℕ) : ℚ :=
  if index < 5 ∨ (bars.length : ℤ) - 5 ≤ index then 1/2
  else
    let preMove := (pySlice bars ((index : ℤ) - 5) (index : ℤ)).map Bar.close
    let postMove := (pySlice bars (index : ℤ) ((index : ℤ) + 5)).map Bar.close
    if preMove.isEmpty ∨ postMove.isEmpty then 1/2
    else
      let priceChange := |postMove.getLastD 0 - preMove.headD 0| / preMove.headD 0
      let strength := min (priceChange * 10) (4/5)
      let strength :=
        match pyMean ((pySlice bars ((index : ℤ) - 20) (index : ℤ)).map Bar.volume) with
        | some avgVolume =>
            if (bars.getD index default).volume > avgVolume * (3/2) then
              strength + 1/5
            else strength
        | none => strength
      min strength 1

/-- The body of the `detect_order_blocks` loop at index `i`
(`src/pattern_detector.py`, lines 119-156). -/
def orderBlockAt (minStrength : ℕ) (bars : List Bar) (i : ℕ) : Option OrderBlockPattern :=
  if isStrongBullishMove bars i minStrength then
    let obLow := pyListMin ((pySlice bars ((i : ℤ) - 5) ((i : ℤ) + 1)).map Bar.low)
    let obHigh := pyListMax ((pySlice bars ((i : ℤ) - 5) ((i : ℤ) + 1)).map Bar.high)
    some { direction := .BULLISH
           ts := (bars.getD i default).ts
           blockHigh := obHigh
           blockLow := obLow
           entryPrice := obLow
           stopLoss := obLow - (obHigh - obLow) * (1/2)
           takeProfit := obHigh + (obHigh - obLow) * 2
           strength := calcOrderblockStrength bars i
           tested := false }
  else if isStrongBearishMove bars i minStrength then
    let obLow := pyListMin ((pySlice bars ((i : ℤ) - 5) ((i : ℤ) + 1)).map Bar.low)
    let obHigh := pyListMax ((pySlice bars ((i : ℤ) - 5) ((i : ℤ) + 1)).map Bar.high)
    some { direction := .BEARISH
           ts := (bars.getD i default).ts
           blockHigh := obHigh
           blockLow := obLow
           entryPrice := obHigh
           stopLoss := obHigh + (obHigh - obLow) * (1/2)
           takeProfit := obLow - (obHigh - obLow) * 2
           strength := calcOrderblockStrength bars i
           tested := false }
  else none

/-- `PatternDetector.detect_order_blocks` (`src/pattern_detector.py`,
lines 99-158): guard `len(df) < 20`, then the loop
`for i in range(10, len(df) - 10)`. -/
def detect_order_blocks (minStrength : ℕ) (bars : List Bar) : List OrderBlockPattern :=
  if bars.length < 20 then []
  else (List.range' 10 (bars.length - 20)).filterMap (orderBlockAt minStrength bars)

/-- Level kind of a liquidity pool. -/
inductive LevelType where
  | RESISTANCE
  | SUPPORT
deriving DecidableEq, Repr, Inhabited

/-- A Liquidity Pool record as built by
`PatternDetector.detect_liquidity_pools` (`src/pattern_detector.py`,
lines 190-222). -/
structure LiquidityPool where
  levelType : LevelType
  priceLevel : ℚ
  ts : ℕ
  touches : ℕ
  strength : ℚ
  direction : PyDir
deriving DecidableEq, Repr, Inhabited

/-- Count of the indices `j ∈ [i-20, i+20], j ≠ i` whose value is within
the relative tolerance of the value at `i` (the `equal_highs` /
`equal_lows` collection of `detect_liquidity_pools`). -/
def liquidityMatches (tolerance : ℚ) (vals : List ℚ) (i : ℕ) : ℕ :=
  let base := vals.getD i 0
  ((List.range' (i - 20) 41).filter fun j =>
    decide (j ≠ i) && decide (|vals.getD j 0 - base| / base ≤ tolerance)).length

/-- `PatternDetector.detect_liquidity_pools` (`src/pattern_detector.py`,
lines 160-224): guard `len(df) < 50`, then the equal-highs loop
`for i in range(20, len(highs) - 20)` followed by the symmetric
equal-lows loop; resistance pools are appended before support pools. -/
def detect_liquidity_pools (tolerance : ℚ) (bars : List Bar) : List LiquidityPool :=
  if bars.length < 50 then []
  else
    let highs := bars.map Bar.high
    let lows := bars.map Bar.low
    let resistancePools := (List.range' 20 (bars.length - 40)).filterMap fun i =>
      let matchCount := liquidityMatches tolerance highs i
      if 2 ≤ matchCount then
        some { levelType := .RESISTANCE
               priceLevel := highs.getD i 0
               ts := (bars.getD i default).ts
               touches := matchCount + 1
               strength := (matchCount : ℚ) / 10
               direction := .BEARISH }
      else none
    let supportPools := (List.range' 20 (bars.length - 40)).filterMap fun i =>
      let matchCount := liquidityMatches tolerance lows i
      if 2 ≤ matchCount then
        some { levelType := .SUPPORT
               priceLevel := lows.getD i 0
               ts := (bars.getD i default).ts
               touches := matchCount + 1
               strength := (matchCount : ℚ) / 10
               direction := .BULLISH }
      else none
    resistancePools ++ supportPools

/-- A swing point entry (`{"index": i, "price": ..., "timestamp": ...}`)
as collected by `ICTTradingAgent._identify_swing_points`
(`src/ict_agent.py`, lines 183-205). -/
structure SwingPoint where
  index : ℕ
  price : ℚ
  ts : ℕ
deriving DecidableEq, Repr, Inhabited

/-- The swing-high test at index `i`: the bar's high strictly exceeds every
other high within `±window` bars. -/
def isSwingHigh (bars : List Bar) (window : ℕ) (i : ℕ) : Bool :=
  (List.range' (i - window) (2 * window + 1)).all fun j =>
    decide (j = i) || decide ((bars.getD j default).high < (bars.getD i default).high)

/-- The swing-low test at index `i`, symmetric to `isSwingHigh`. -/
def isSwingLow (bars : List Bar) (window : ℕ) (i : ℕ) : Bool :=
  (List.range' (i - window) (2 * window + 1)).all fun j =>
    decide (j = i) || decide ((bars.getD i default).low < (bars.getD j default).low)

/-- `ICTTradingAgent._identify_swing_points` (`src/ict_agent.py`,
lines 183-205): the loop `for i in range(window, len(df) - window)`
collecting swing highs and swing lows. -/
def identifySwingPoints (bars : List Bar) (window : ℕ) : List SwingPoint × List SwingPoint :=
  let idxs := List.range' window (bars.length - 2 * window)
  let highs := idxs.filterMap fun i =>
    if isSwingHigh bars window i then
      some { index := i, price := (bars.getD i default).high, ts := (bars.getD i default).ts }
    else none
  let lows := idxs.filterMap fun i =>
    if isSwingLow bars window i then
      some { index := i, price := (bars.getD i default).low, ts := (bars.getD i default).ts }
    else none
  (highs, lows)

/-- Python `l[-5:]`: the last five elements (the whole list when it is
shorter). -/
def lastFive {α : Type} (l : List α) : List α := l.drop (l.length - 5)

/-- Strict monotone-increase of consecutive prices, as the Python
`all(xs[i]["price"] > xs[i-1]["price"] for i in range(1, len(xs)))`. -/
def pricesStrictlyIncreasing (xs : List SwingPoint) : Bool :=
  (List.range' 1 (xs.length - 1)).all fun i =>
    decide ((xs.getD (i - 1) default).price < (xs.getD i default).price)

/-- Strict monotone-decrease of consecutive prices. -/
def pricesStrictlyDecreasing (xs : List SwingPoint) : Bool :=
  (List.range' 1 (xs.length - 1)).all fun i =>
    decide ((xs.getD i default).price < (xs.getD (i - 1) default).price)

/-- `ICTTradingAgent._determine_trend` (`src/ict_agent.py`, lines 207-229). -/
def determineTrend (swingHighs swingLows : List SwingPoint) : Trend :=
  let highs := lastFive swingHighs
  let lows := lastFive swingLows
  if highs.length < 2 ∨ lows.length < 2 then .SIDEWAYS
  else if pricesStrictlyIncreasing highs && pricesStrictlyIncreasing lows then .UPTREND
  else if pricesStrictlyDecreasing highs && pricesStrictlyDecreasing lows then .DOWNTREND
  else .SIDEWAYS

/-- `ICTTradingAgent.analyze_market_structure` (`src/ict_agent.py`,
lines 45-82), restricted to the `trend_direction` entry that
`generate_signals` reads.  An empty fetched series yields the
`{"error": ...}` dictionary, modelled as `none`. -/
def analyzeMarketStructure (agentBars : List Bar) : Option Trend :=
  if agentBars.isEmpty then none
  else
    let swings := identifySwingPoints agentBars 5
    some (determineTrend swings.1 swings.2)

/-- `market_structure.get("trend_direction", "SIDEWAYS")` as performed by
the signal-validity helpers: the error dictionary has no trend entry and
falls back to SIDEWAYS. -/
def trendOf (ms : Option Trend) : Trend := ms.getD .SIDEWAYS

/-- `ICTTradingAgent._is_valid_fvg_signal` (`src/ict_agent.py`,
lines 251-260). -/
def isValidFvgSignal (direction : PyDir) (trend : Trend) : Bool :=
  if trend = .UPTREND ∧ direction = .BULLISH then true
  else if trend = .DOWNTREND ∧ direction = .BEARISH then true
  else false

/-- `ICTTradingAgent._is_valid_orderblock_signal` (`src/ict_agent.py`,
lines 262-271); its body is identical to the FVG validity check. -/
def isValidOrderblockSignal (direction : PyDir) (trend : Trend) : Bool :=
  if trend = .UPTREND ∧ direction = .BULLISH then true
  else if trend = .DOWNTREND ∧ direction = .BEARISH then true
  else false

/-- The fields of a pattern dictionary that
`_calculate_signal_strength` reads: `direction`, `strength`
(via `.get("strength", 0.5)`, but both pattern kinds always set it) and
the `volume_confirmation` flag via `.get("volume_confirmation", False)` —
neither FVG nor Order Block dictionaries ever set that key, so the view
built from them carries `false`. -/
structure PatternView where
  direction : PyDir
  strength : ℚ
  volumeConfirmation : Bool
deriving DecidableEq, Repr, Inhabited

/-- `ICTTradingAgent._calculate_signal_strength` (`src/ict_agent.py`,
lines 273-286).  The trend-alignment test is Python's substring
containment `pattern["direction"].upper() in trend`. -/
def calcSignalStrength (pattern : PatternView) (trend : Trend) : ℚ :=
  let baseStrength := pattern.strength
  let baseStrength :=
    if trend ≠ .SIDEWAYS ∧ pyInStr (dirChars pattern.direction) (trendChars trend) then
      baseStrength + 1/5
    else baseStrength
  let baseStrength :=
    if pattern.volumeConfirmation then baseStrength + 1/10 else baseStrength
  min baseStrength 1

/-- The `type` field of a generated signal. -/
inductive SignalType where
  | FVG_ENTRY
  | ORDERBLOCK_ENTRY
deriving DecidableEq, Repr, Inhabited

/-- The `pattern` label of a generated signal.  `LiquidityPool` is a
possible label value in the data model, but `generate_signals` only ever
attaches the other two. -/
inductive PatternLabel where
  | FairValueGap
  | OrderBlock
  | LiquidityPool
deriving DecidableEq, Repr, Inhabited

/-- A trading-signal dictionary as built by
`ICTTradingAgent.generate_signals` (`src/ict_agent.py`, lines 153-179). -/
structure Signal where
  type : SignalType
  direction : PyDir
  price : ℚ
  stopLoss : ℚ
  takeProfit : ℚ
  strength : ℚ
  timestamp : ℕ
  pattern : PatternLabel
deriving DecidableEq, Repr, Inhabited

/-- The FVG branch of the signal loop (`src/ict_agent.py`,
lines 153-165): validity filter plus signal construction. -/
def buildFvgSignal (trend : Trend) (now : ℕ) (fvg : FVGPattern) : Option Signal :=
  if isValidFvgSignal fvg.direction trend then
    some { type := .FVG_ENTRY
           direction := fvg.direction
           price := fvg.entryPrice
           stopLoss := fvg.stopLoss
           takeProfit := fvg.takeProfit
           strength := calcSignalStrength
             { direction := fvg.direction, strength := fvg.strength
               volumeConfirmation := false } trend
           timestamp := now
           pattern := .FairValueGap }
  else none

/-- The Order Block branch of the signal loop (`src/ict_agent.py`,
lines 167-179). -/
def buildOrderBlockSignal (trend : Trend) (now : ℕ) (ob : OrderBlockPattern) : Option Signal :=
  if isValidOrderblockSignal ob.direction trend then
    some { type := .ORDERBLOCK_ENTRY
           direction := ob.direction
           price := ob.entryPrice
           stopLoss := ob.stopLoss
           takeProfit := ob.takeProfit
           strength := calcSignalStrength
             { direction := ob.direction, strength := ob.strength
               volumeConfirmation := false } trend
           timestamp := now
           pattern := .OrderBlock }
  else none

/-- Stable insertion of a signal into a strength-descending list: the new
element goes after every already-present element of greater-or-equal
strength. -/
def insertByStrengthDesc (s : Signal) : List Signal → List Signal
  | [] => [s]
  | t :: ts => if t.strength < s.strength then s :: t :: ts else t :: insertByStrengthDesc s ts

/-- Python's stable `sorted(signals, key=lambda x: x["strength"],
reverse=True)`: elements of equal strength keep their original order. -/
def sortByStrengthDesc (l : List Signal) : List Signal :=
  l.foldl (fun acc s => insertByStrengthDesc s acc) []

/-- `ICTTradingAgent.generate_signals` (`src/ict_agent.py`, lines 135-181).
`agentBars` is the series returned by the agent's `DataHandler` fetch
(`get_price_data(symbol, period=...)`) — the same series for the FVG,
Order Block and market-structure calls; `now` models `datetime.now()`.
The configuration enters through `minGapSize` (`fvg_min_size`) and
`obMinStrength` (`orderblock_strength`). -/
def generate_signals (minGapSize : ℚ) (obMinStrength : ℕ) (agentBars : List Bar)
    (now : ℕ) : List Signal :=
  let fvgs := detect_fair_value_gaps minGapSize agentBars
  let orderBlocks := detect_order_blocks obMinStrength agentBars
  let trend := trendOf (analyzeMarketStructure agentBars)
  let signals := fvgs.filterMap (buildFvgSignal trend now)
    ++ orderBlocks.filterMap (buildOrderBlockSignal trend now)
  sortByStrengthDesc signals

/-- The `RiskManager` configuration dictionary
(`src/risk_manager.py`, lines 43-54). -/
structure RiskConfig where
  riskPerTrade : ℚ
  maxPositions : ℕ
  maxPortfolioRisk : ℚ
  maxPositionSize : ℚ
  stopLossAtrMultiplier : ℚ
  takeProfitRatio : ℚ
  maxDailyLoss : ℚ
  maxDrawdown : ℚ
deriving DecidableEq, Repr, Inhabited

/-- `RiskManager._default_config` (`src/risk_manager.py`, lines 43-54). -/
def defaultRiskConfig : RiskConfig :=
  { riskPerTrade := 1/50
    maxPositions := 3
    maxPortfolioRisk := 3/50
    maxPositionSize := 3/10
    stopLossAtrMultiplier := 2
    takeProfitRatio := 2
    maxDailyLoss := 1/20
    maxDrawdown := 1/5 }

/-- The `Position` dataclass of the risk manager
(`src/risk_manager.py`, lines 15-24). -/
structure Position where
  symbol : String
  direction : PyDir
  entryPrice : ℚ
  quantity : ℤ
  stopLoss : ℚ
  takeProfit : ℚ
  entryDate : ℕ
deriving DecidableEq, Repr, Inhabited

/-- Python `current_positions or self.positions`: `None` and the empty
list are falsy and fall back to the manager's internal registry. -/
def pyOrList (x : Option (List Position)) (d : List Position) : List Position :=
  match x with
  | none => d
  | some l => if l.isEmpty then d else l

/-- `RiskManager.calculate_position_size` (`src/risk_manager.py`,
lines 56-96): risk-based size, clamped by the max-position-size fraction,
then re-clamped by affordability. -/
def calculate_position_size (cfg : RiskConfig) (capital entryPrice stopLoss : ℚ)
    (riskPerTrade : Option ℚ) : ℤ :=
  let riskPct := pyOrQ riskPerTrade cfg.riskPerTrade
  let riskAmount := capital * riskPct
  let priceRisk := |entryPrice - stopLoss|
  if priceRisk ≤ 0 then 0
  else
    let positionSize := pyInt (riskAmount / priceRisk)
    let maxPosition := pyInt (capital * cfg.maxPositionSize / entryPrice)
    let positionSize := min positionSize maxPosition
    let totalCost := (positionSize : ℚ) * entryPrice
    if totalCost > capital then pyInt (capital / entryPrice) else positionSize

/-- `RiskManager._calculate_portfolio_risk` (`src/risk_manager.py`,
lines 274-296). -/
def calcPortfolioRisk (positions : List Position) (capital : ℚ) : ℚ :=
  positions.foldl
    (fun total p =>
      let risk := |p.entryPrice - p.stopLoss| * (p.quantity : ℚ)
      total + (if 0 < capital then risk / capital else 0))
    0

/-- The fields of the signal dictionary read by `validate_trade` through
`signal.get('price', 0)`, `signal.get('stop_loss', 0)` and
`signal.get('take_profit', 0)`. -/
structure TradeSignal where
  price : ℚ
  stopLoss : ℚ
  takeProfit : ℚ
deriving DecidableEq, Repr, Inhabited

/-- The rejection/acceptance reasons returned by `validate_trade`
(the Python strings, with the risk/reward reason keeping its numeric
parts). -/
inductive TradeReason where
  | maxPositionsReached
  | insufficientCapital
  | portfolioRiskExceeded
  | riskRewardBelowMin (rrRatio minRR : ℚ)
  | validated
deriving DecidableEq, Repr, Inhabited

/-- `RiskManager.validate_trade` (`src/risk_manager.py`, lines 98-148).
`selfPositions` is the manager's internal `self.positions` registry;
`currentPositions` the explicit argument, merged by Python truthiness. -/
def validate_trade (cfg : RiskConfig) (selfPositions : List Position)
    (signal : TradeSignal) (capital : ℚ)
    (currentPositions : Option (List Position)) : Bool × TradeReason :=
  let positions := pyOrList currentPositions selfPositions
  if cfg.maxPositions ≤ positions.length then
    (false, .maxPositionsReached)
  else
    let entryPrice := signal.price
    let stopLoss := signal.stopLoss
    let positionSize := calculate_position_size cfg capital entryPrice stopLoss none
    if positionSize ≤ 0 then
      (false, .insufficientCapital)
    else
      let currentRisk := calcPortfolioRisk positions capital
      let newRisk := cfg.riskPerTrade
      if cfg.maxPortfolioRisk < currentRisk + newRisk then
        (false, .portfolioRiskExceeded)
      else
        let risk := |entryPrice - stopLoss|
        let reward := |signal.takeProfit - entryPrice|
        if 0 < risk ∧ reward / risk < cfg.takeProfitRatio then
          (false, .riskRewardBelowMin (reward / risk) cfg.takeProfitRatio)
        else
          (true, .validated)

/-- Exit reasons recorded for a completed trade by `run_backtest`. -/
inductive ExitReason where
  | stopLossHit
  | takeProfitHit
  | endOfBacktest
deriving DecidableEq, Repr, Inhabited

/-- A position dictionary held by `run_backtest` (`src/backtester.py`,
lines 126-134).  Its `direction` field carries the direction string of the
originating signal, which is `BULLISH`/`BEARISH`. -/
structure BTPosition where
  entryDate : ℕ
  entryPrice : ℚ
  direction : PyDir
  quantity : ℤ
  stopLoss : ℚ
  takeProfit : ℚ
  pattern : PatternLabel
deriving DecidableEq, Repr, Inhabited

/-- A completed-trade dictionary (`src/backtester.py`, lines 94-103). -/
structure Trade where
  entryDate : ℕ
  exitDate : ℕ
  entryPrice : ℚ
  exitPrice : ℚ
  direction : PyDir
  quantity : ℤ
  pnl : ℚ
  exitReason : ExitReason
deriving DecidableEq, Repr, Inhabited

/-- An equity-curve sample (`src/backtester.py`, lines 77-82). -/
structure EquityPoint where
  date : ℕ
  equity : ℚ
  cash : ℚ
  positionsValue : ℚ
deriving DecidableEq, Repr, Inhabited

/-- `Backtester._check_exit_signal` (`src/backtester.py`, lines 172-197).
The comparison is against the literal string `'LONG'` — positions opened
from signals carry `BULLISH`/`BEARISH`, so they always take the `else`
(SHORT) branch. -/
def checkExitSignal (position : BTPosition) (currentPrice : ℚ) : Option ExitReason :=
  if position.direction = .LONG then
    if currentPrice ≤ position.stopLoss then some .stopLossHit
    else if currentPrice ≥ position.takeProfit then some .takeProfitHit
    else none
  else
    if currentPrice ≥ position.stopLoss then some .stopLossHit
    else if currentPrice ≤ position.takeProfit then some .takeProfitHit
    else none

/-- `Backtester._calculate_pnl` (`src/backtester.py`, lines 226-242). -/
def calcPnl (position : BTPosition) (exitPrice : ℚ) : ℚ :=
  if position.direction = .LONG then
    (exitPrice - position.entryPrice) * (position.quantity : ℚ)
  else
    (position.entryPrice - exitPrice) * (position.quantity : ℚ)

/-- `Backtester._calculate_position_size` (`src/backtester.py`,
lines 199-224): the backtester's own sizing helper (risk-based size capped
at 30% of capital, with no affordability re-clamp). -/
def btPositionSize (capital entryPrice stopLoss riskPerTrade : ℚ) : ℤ :=
  let riskAmount := capital * riskPerTrade
  let priceRisk := |entryPrice - stopLoss|
  if priceRisk ≤ 0 then 0
  else
    let positionSize := pyInt (riskAmount / priceRisk)
    let maxPosition := pyInt (capital * (3/10) / entryPrice)
    min positionSize maxPosition

/-- Closing a position (`src/backtester.py`, lines 88-105 and 139-154):
slippage-adjusted exit price, realized P&L credited net of commission, and
the appended trade record. -/
def closePosition (commission slippage : ℚ) (capital : ℚ) (position : BTPosition)
    (currentPrice : ℚ) (exitDate : ℕ) (reason : ExitReason) : ℚ × Trade :=
  let exitPrice :=
    currentPrice * (if position.direction = .LONG then 1 - slippage else 1 + slippage)
  let pnl := calcPnl position exitPrice
  (capital + pnl - commission,
   { entryDate := position.entryDate
     exitDate := exitDate
     entryPrice := position.entryPrice
     exitPrice := exitPrice
     direction := position.direction
     quantity := position.quantity
     pnl := pnl
     exitReason := reason })

/-- Opening a position (`src/backtester.py`, lines 120-135): the cash
debit is the full entry cost `quantity * entry_price + commission`, where
`entry_price` is the slippage-adjusted signal price. -/
def openPosition (commission slippage : ℚ) (capital : ℚ) (signal : Signal)
    (positionSize : ℤ) (entryDate : ℕ) : ℚ × BTPosition :=
  let entryPrice := signal.price * (1 + slippage)
  let cost := (positionSize : ℚ) * entryPrice + commission
  (capital - cost,
   { entryDate := entryDate
     entryPrice := entryPrice
     direction := signal.direction
     quantity := positionSize
     stopLoss := signal.stopLoss
     takeProfit := signal.takeProfit
     pattern := signal.pattern })

/-- The mutable state of the `run_backtest` simulation loop. -/
structure BTState where
  cash : ℚ
  positions : List BTPosition
  trades : List Trade
  equityCurve : List EquityPoint
deriving DecidableEq, Repr, Inhabited

/-- One iteration of the `run_backtest` loop at bar index `i`
(`src/backtester.py`, lines 70-135): record the equity sample, evaluate
exits against the current close, and — when fewer than 3 positions are
open — fetch fresh signals via `self.agent.generate_signals(symbol)`
(a new fetch of the agent's series, independent of `i`) and try to open
the strongest signal with strength ≥ 0.6. -/
def stepBar (commission slippage minGapSize : ℚ) (obMinStrength : ℕ)
    (agentBars dfBars : List Bar) (now : ℕ) (st : BTState) (i : ℕ) : BTState :=
  let bar := dfBars.getD i default
  let currentDate := bar.ts
  let currentPrice := bar.close
  let positionsValue :=
    st.positions.foldl (fun acc p => acc + (p.quantity : ℚ) * currentPrice) 0
  let totalEquity := st.cash + positionsValue
  let equityCurve := st.equityCurve ++
    [{ date := currentDate, equity := totalEquity, cash := st.cash
       positionsValue := positionsValue }]
  let exitState := st.positions.foldl
    (fun (acc : ℚ × List BTPosition × List Trade) position =>
      match checkExitSignal position currentPrice with
      | some reason =>
          let closed := closePosition commission slippage acc.1 position
            currentPrice currentDate reason
          (closed.1, acc.2.1, acc.2.2 ++ [closed.2])
      | none => (acc.1, acc.2.1 ++ [position], acc.2.2))
    (st.cash, [], st.trades)
  let cash := exitState.1
  let positions := exitState.2.1
  let trades := exitState.2.2
  if positions.length < 3 then
    let signals := generate_signals minGapSize obMinStrength agentBars now
    match signals.head? with
    | some signal =>
        if signal.strength ≥ 3/5 then
          let positionSize := btPositionSize cash signal.price signal.stopLoss (1/50)
          if 0 < positionSize then
            let entryPrice := signal.price * (1 + slippage)
            let cost := (positionSize : ℚ) * entryPrice + commission
            if cost ≤ cash then
              let opened := openPosition commission slippage cash signal
                positionSize currentDate
              { cash := opened.1, positions := positions ++ [opened.2]
                trades := trades, equityCurve := equityCurve }
            else
              { cash := cash, positions := positions, trades := trades
                equityCurve := equityCurve }
          else
            { cash := cash, positions := positions, trades := trades
              equityCurve := equityCurve }
        else
          { cash := cash, positions := positions, trades := trades
            equityCurve := equityCurve }
    | none =>
        { cash := cash, positions := positions, trades := trades
          equityCurve := equityCurve }
  else
    { cash := cash, positions := positions, trades := trades
      equityCurve := equityCurve }

/-- The result record of `run_backtest` (the fields the claims are about;
the derived metrics dictionary is a pure function of these). -/
structure BacktestResult where
  finalCapital : ℚ
  trades : List Trade
  equityCurve : List EquityPoint
deriving DecidableEq, Repr, Inhabited

/-- `Backtester.run_backtest` (`src/backtester.py`, lines 40-170).
`dfBars` is the series fetched once through `get_historical_data`;
an empty fetch returns the `{"error": ...}` record, modelled as `none`.
The loop runs `for i in range(100, len(df))`, and remaining positions are
force-closed at the final bar's close. -/
def run_backtest (initialCapital commission slippage minGapSize : ℚ)
    (obMinStrength : ℕ) (dfBars agentBars : List Bar) (now : ℕ) :
    Option BacktestResult :=
  if dfBars.isEmpty then none
  else
    let st0 : BTState := { cash := initialCapital, positions := [], trades := []
                           equityCurve := [] }
    let st := (List.range' 100 (dfBars.length - 100)).foldl
      (stepBar commission slippage minGapSize obMinStrength agentBars dfBars now) st0
    let finalBar := dfBars.getLastD default
    let finalState := st.positions.foldl
      (fun (acc : ℚ × List Trade) position =>
        let closed := closePosition commission slippage acc.1 position
          finalBar.close finalBar.ts .endOfBacktest
        (closed.1, acc.2 ++ [closed.2]))
      (st.cash, st.trades)
    some { finalCapital := finalState.1, trades := finalState.2
           equityCurve := st.equityCurve }

/-- The Bar invariants stated in the specification's data model:
strictly increasing timestamps, `high ≥ max(open, close)` and
`low ≤ min(open, close)`. -/
def barInvariants (bars : List Bar) : Bool :=
  ((List.range' 1 (bars.length - 1)).all fun i =>
    decide ((bars.getD (i - 1) default).ts < (bars.getD i default).ts))
  && bars.all fun b =>
    decide (max b.open_ b.close ≤ b.high) && decide (b.low ≤ min b.open_ b.close)

/-- A three-bar series realizing the specification's gap example:
previous low 110, bullish middle candle, next high 100
(gap size `(110 - 100) / 100 = 0.1`). -/
def gapExampleBars : List Bar :=
  [{ ts := 0, open_ := 111, high := 112, low := 110, close := 111, volume := 1000 },
   { ts := 1, open_ := 100, high := 102, low := 99, close := 101, volume := 1000 },
   { ts := 2, open_ := 99, high := 100, low := 98, close := 99, volume := 1000 }]

/-- Fifty identical bars: every bar touches the same high and the same
low, so every liquidity-pool candidate finds all 40 neighbours within
tolerance. -/
def constBars50 : List Bar :=
  (List.range 50).map fun t =>
    { ts := t, open_ := 100, high := 101, low := 99, close := 100, volume := 1000 }

/-- The common prefix of the two 103-bar series used to exhibit the
backtest lookahead: an uptrend (swing highs 110 < 115 at indices 20 and
60, swing lows 85 < 90 at indices 30 and 70), a high-low bar at index 100
and a bullish candle with a volume surge at index 101. -/
def lookaheadBarAt (t : ℕ) : Bar :=
  if t = 20 then { ts := t, open_ := 100, high := 110, low := 99, close := 100, volume := 1000 }
  else if t = 60 then { ts := t, open_ := 100, high := 115, low := 99, close := 100, volume := 1000 }
  else if t = 30 then { ts := t, open_ := 100, high := 101, low := 85, close := 100, volume := 1000 }
  else if t = 70 then { ts := t, open_ := 100, high := 101, low := 90, close := 100, volume := 1000 }
  else if t = 100 then { ts := t, open_ := 111, high := 112, low := 110, close := 111, volume := 1000 }
  else if t = 101 then { ts := t, open_ := 100, high := 101, low := 99, close := 201/2, volume := 2000 }
  else { ts := t, open_ := 100, high := 101, low := 99, close := 100, volume := 1000 }

/-- Variant A: bar 102 stays high, so bars 100-102 form no gap. -/
def lookaheadBarsA : List Bar :=
  (List.range 103).map fun t =>
    if t = 102 then { ts := t, open_ := 100, high := 111, low := 99, close := 110, volume := 1000 }
    else lookaheadBarAt t

/-- Variant B: bar 102 drops to high 100, so bars 100-102 form a bullish
Fair Value Gap (previous low 110 > next high 100) at index 101.
`lookaheadBarsA` and `lookaheadBarsB` agree on all indices up to 101. -/
def lookaheadBarsB : List Bar :=
  (List.range 103).map fun t =>
    if t = 102 then { ts := t, open_ := 199/2, high := 100, low := 99, close := 499/5, volume := 1000 }
    else lookaheadBarAt t

/-- Three arbitrary open positions for the max-positions scenarios. -/
def threePositions : List Position :=
  [{ symbol := "A", direction := .BULLISH, entryPrice := 100, quantity := 10
     stopLoss := 95, takeProfit := 110, entryDate := 0 },
   { symbol := "B", direction := .BULLISH, entryPrice := 50, quantity := 4
     stopLoss := 48, takeProfit := 54, entryDate := 1 },
   { symbol := "C", direction := .BEARISH, entryPrice := 200, quantity := 2
     stopLoss := 210, takeProfit := 180, entryDate := 2 }]

/-- Stamping a signal with a clock reading: `generate_signals` at clock
`now` factors as `generate_signals` at clock `0` followed by `setTs now`
(only the `timestamp` field of each signal depends on `datetime.now()`). -/
def setTs (now : ℕ) (s : Signal) : Signal :=
  { s with timestamp := now }

/-! ## Helper lemmas -/

theorem pyInt_eq (q : ℚ) : pyInt q = if 0 ≤ q then ⌊q⌋ else ⌈q⌉ := by
  unfold pyInt
  by_cases h : 0 ≤ q
  · rw [if_pos h, Rat.floor_def]
    exact Int.tdiv_eq_ediv (Rat.num_nonneg.mpr h) (Int.ofNat_nonneg q.den)
  · rw [if_neg h]
    have hq : ⌈q⌉ = -⌊-q⌋ := by rw [Int.floor_neg, neg_neg]
    rw [hq, Rat.floor_def, Rat.neg_num q, Rat.neg_den q]
    have h2 : q.num.tdiv q.den = -((-q.num).tdiv q.den) := by
      rw [Int.neg_tdiv, Int.neg_neg]
    rw [h2]
    congr 1
    refine Int.tdiv_eq_ediv ?_ (Int.ofNat_nonneg q.den)
    have : q.num ≤ 0 := Rat.num_nonpos.mpr (le_of_not_le h)
    omega

theorem pyInt_mono {q r : ℚ} (h : q ≤ r) : pyInt q ≤ pyInt r := by
  rw [pyInt_eq, pyInt_eq]
  by_cases hq : 0 ≤ q
  · rw [if_pos hq, if_pos (le_trans hq h)]
    exact Int.floor_le_floor h
  · rw [if_neg hq]
    by_cases hr : 0 ≤ r
    · rw [if_pos hr]
      calc ⌈q⌉ ≤ ⌈(0 : ℚ)⌉ := Int.ceil_le_ceil (le_of_not_le hq)
        _ = 0 := by simp
        _ ≤ ⌊r⌋ := Int.floor_nonneg.mpr hr
    · rw [if_neg hr]
      exact Int.ceil_le_ceil h

theorem pyInt_le {q : ℚ} (h : 0 ≤ q) : (pyInt q : ℚ) ≤ q := by
  rw [pyInt_eq, if_pos h]
  exact_mod_cast Int.floor_le q

theorem pySlice_subset {α : Type} {l : List α} {a b : ℤ} {x : α}
    (h : x ∈ pySlice l a b) : x ∈ l := by
  unfold pySlice at h
  exact List.mem_of_mem_drop (List.mem_of_mem_take h)

theorem mem_insertByStrengthDesc {x s : Signal} {l : List Signal} :
    x ∈ insertByStrengthDesc s l ↔ x = s ∨ x ∈ l := by
  induction l with
  | nil => simp [insertByStrengthDesc]
  | cons t ts ih =>
      unfold insertByStrengthDesc
      split
      · simp
      · simp only [List.mem_cons, ih]
        tauto

theorem mem_sortFoldl {x : Signal} (l : List Signal) (acc : List Signal) :
    x ∈ l.foldl (fun a s => insertByStrengthDesc s a) acc ↔ x ∈ acc ∨ x ∈ l := by
  induction l generalizing acc with
  | nil => simp
  | cons t ts ih =>
      rw [List.foldl_cons, ih, mem_insertByStrengthDesc]
      simp
      tauto

theorem mem_sortByStrengthDesc {x : Signal} {l : List Signal} :
    x ∈ sortByStrengthDesc l ↔ x ∈ l := by
  unfold sortByStrengthDesc
  rw [mem_sortFoldl]
  simp

theorem calcFvgStrength_bounds (bars : List Bar) (i : ℕ) (g : ℚ) (hg : 0 ≤ g) :
    0 ≤ calcFvgStrength bars i g ∧ calcFvgStrength bars i g ≤ 1 := by
  unfold calcFvgStrength
  have h1 : 0 ≤ min (g * 100) (1/2) := le_min (by positivity) (by norm_num)
  refine ⟨le_min ?_ zero_le_one, min_le_right _ _⟩
  repeat' first
    | split
    | apply add_nonneg
    | dsimp only
  all_goals first
    | exact h1
    | norm_num

theorem calcOrderblockStrength_bounds (bars : List Bar) (i : ℕ)
    (hclose : ∀ b ∈ bars, 0 < b.close) :
    0 ≤ calcOrderblockStrength bars i ∧ calcOrderblockStrength bars i ≤ 1 := by
  unfold calcOrderblockStrength
  split
  · exact ⟨by norm_num, by norm_num⟩
  · dsimp only
    split
    · exact ⟨by norm_num, by norm_num⟩
    · rename_i hne
      push_neg at hne
      have hpos : 0 < ((pySlice bars ((i : ℤ) - 5) (i : ℤ)).map Bar.close).headD 0 := by
        rcases hsl : pySlice bars ((i : ℤ) - 5) (i : ℤ) with _ | ⟨b0, rest⟩
        · exact absurd
            (show (List.map Bar.close (pySlice bars ((i : ℤ) - 5) (i : ℤ))).isEmpty = true by
              simp [hsl])
            hne.1
        · have hb0 : b0 ∈ pySlice bars ((i : ℤ) - 5) (i : ℤ) := by
            rw [hsl]
            exact List.mem_cons_self _ _
          have := hclose _ (pySlice_subset hb0)
          simpa using this
      have h1 : 0 ≤ min (|((pySlice bars (i : ℤ) ((i : ℤ) + 5)).map Bar.close).getLastD 0 -
          ((pySlice bars ((i : ℤ) - 5) (i : ℤ)).map Bar.close).headD 0| /
          ((pySlice bars ((i : ℤ) - 5) (i : ℤ)).map Bar.close).headD 0 * 10) (4/5) :=
        le_min (by positivity) (by norm_num)
      refine ⟨le_min ?_ zero_le_one, min_le_right _ _⟩
      repeat' first
        | split
        | apply add_nonneg
        | dsimp only
      all_goals first
        | exact h1
        | norm_num

theorem calcSignalStrength_bounds (v : PatternView) (t : Trend) (h : 0 ≤ v.strength) :
    0 ≤ calcSignalStrength v t ∧ calcSignalStrength v t ≤ 1 := by
  unfold calcSignalStrength
  refine ⟨le_min ?_ zero_le_one, min_le_right _ _⟩
  repeat' first
    | split
    | apply add_nonneg
    | dsimp only
  all_goals first
    | exact h
    | norm_num

theorem fvg_strength_bounds {minGapSize : ℚ} {bars : List Bar} {p : FVGPattern}
    (hmg : 0 ≤ minGapSize) (h : p ∈ detect_fair_value_gaps minGapSize bars) :
    0 ≤ p.strength ∧ p.strength ≤ 1 := by
  unfold detect_fair_value_gaps at h
  split at h
  · simp at h
  · obtain ⟨i, _, hfi⟩ := List.mem_filterMap.mp h
    unfold fvgAt at hfi
    dsimp only at hfi
    split at hfi
    · split at hfi
      · rename_i hgap
        obtain rfl := Option.some.inj hfi
        exact calcFvgStrength_bounds _ _ _ (le_trans hmg hgap)
      · simp at hfi
    · split at hfi
      · split at hfi
        · rename_i hgap
          obtain rfl := Option.some.inj hfi
          exact calcFvgStrength_bounds _ _ _ (le_trans hmg hgap)
        · simp at hfi
      · simp at hfi

theorem ob_strength_bounds {minStrength : ℕ} {bars : List Bar} {p : OrderBlockPattern}
    (hclose : ∀ b ∈ bars, 0 < b.close) (h : p ∈ detect_order_blocks minStrength bars) :
    0 ≤ p.strength ∧ p.strength ≤ 1 := by
  unfold detect_order_blocks at h
  split at h
  · simp at h
  · obtain ⟨i, _, hfi⟩ := List.mem_filterMap.mp h
    unfold orderBlockAt at hfi
    dsimp only at hfi
    split at hfi
    · obtain rfl := Option.some.inj hfi
      exact calcOrderblockStrength_bounds _ _ hclose
    · split at hfi
      · obtain rfl := Option.some.inj hfi
        exact calcOrderblockStrength_bounds _ _ hclose
      · simp at hfi

theorem liq_pool_strength {tolerance : ℚ} {bars : List Bar} {p : LiquidityPool}
    (h : p ∈ detect_liquidity_pools tolerance bars) :
    p.strength = ((p.touches - 1 : ℕ) : ℚ) / 10 ∧ 1/5 ≤ p.strength := by
  unfold detect_liquidity_pools at h
  split at h
  · simp at h
  · dsimp only at h
    rcases List.mem_append.mp h with h' | h'
    · obtain ⟨i, _, hfi⟩ := List.mem_filterMap.mp h'
      split at hfi
      · rename_i hmc
        obtain rfl := Option.some.inj hfi
        have h2 : (2 : ℚ) ≤ ((liquidityMatches tolerance (bars.map Bar.high) i : ℕ) : ℚ) := by
          exact_mod_cast hmc
        exact ⟨by simp, by dsimp only; linarith⟩
      · simp at hfi
    · obtain ⟨i, _, hfi⟩ := List.mem_filterMap.mp h'
      split at hfi
      · rename_i hmc
        obtain rfl := Option.some.inj hfi
        have h2 : (2 : ℚ) ≤ ((liquidityMatches tolerance (bars.map Bar.low) i : ℕ) : ℚ) := by
          exact_mod_cast hmc
        exact ⟨by simp, by dsimp only; linarith⟩
      · simp at hfi

theorem calculate_position_size_eq (cfg : RiskConfig) (capital entryPrice stopLoss : ℚ)
    (riskOpt : Option ℚ) (hc : 0 ≤ capital) (he : 0 < entryPrice)
    (hm1 : cfg.maxPositionSize ≤ 1)
    (hpr : ¬(|entryPrice - stopLoss| ≤ 0)) :
    calculate_position_size cfg capital entryPrice stopLoss riskOpt =
      min (pyInt (capital * pyOrQ riskOpt cfg.riskPerTrade / |entryPrice - stopLoss|))
          (pyInt (capital * cfg.maxPositionSize / entryPrice)) := by
  unfold calculate_position_size
  rw [if_neg hpr]
  dsimp only
  rw [if_neg]
  push_neg
  set a := pyInt (capital * pyOrQ riskOpt cfg.riskPerTrade / |entryPrice - stopLoss|) with ha
  set b := pyInt (capital * cfg.maxPositionSize / entryPrice) with hb
  rcases le_or_lt ((min a b : ℤ) : ℚ) 0 with hmin | hmin
  · calc ((min a b : ℤ) : ℚ) * entryPrice ≤ 0 :=
        mul_nonpos_of_nonpos_of_nonneg hmin he.le
      _ ≤ capital := hc
  · have hble : ((min a b : ℤ) : ℚ) ≤ capital * cfg.maxPositionSize / entryPrice := by
      calc ((min a b : ℤ) : ℚ) ≤ (b : ℚ) := by exact_mod_cast min_le_right a b
        _ ≤ capital * cfg.maxPositionSize / entryPrice := by
            rw [hb]
            apply pyInt_le
            by_contra hneg
            push_neg at hneg
            have : (pyInt (capital * cfg.maxPositionSize / entryPrice) : ℚ) ≤ 0 := by
              have h0 : pyInt (capital * cfg.maxPositionSize / entryPrice) ≤ pyInt 0 :=
                pyInt_mono hneg.le
              have : pyInt (0 : ℚ) = 0 := rfl
              exact_mod_cast h0.trans_eq this
            have hminle : ((min a b : ℤ) : ℚ) ≤ (b : ℚ) := by exact_mod_cast min_le_right a b
            rw [← hb] at this
            linarith
    calc ((min a b : ℤ) : ℚ) * entryPrice
        ≤ (capital * cfg.maxPositionSize / entryPrice) * entryPrice :=
          mul_le_mul_of_nonneg_right hble he.le
      _ = capital * cfg.maxPositionSize := div_mul_cancel₀ _ he.ne'
      _ ≤ capital * 1 := mul_le_mul_of_nonneg_left hm1 hc
      _ = capital := mul_one _

/-- C2: the claim states that an accepted signal's strength is the pattern
strength plus an always-applied 0.2 trend-alignment bonus (plus 0.1 for a
volume flag), capped at 1.0.  The code's trend-alignment test is the Python
substring containment `pattern["direction"].upper() in trend`, and
`"BULLISH"`/`"BEARISH"` are never substrings of `"UPTREND"`/`"DOWNTREND"`,
so the 0.2 bonus is never added: an accepted BULLISH pattern of strength
0.5 under an UPTREND yields signal strength 0.5, not the claimed 0.7. -/
theorem C2_trend_bonus_never_applied :
    calcSignalStrength
        { direction := .BULLISH, strength := 1/2, volumeConfirmation := false } .UPTREND = 1/2
    ∧ calcSignalStrength
        { direction := .BULLISH, strength := 1/2, volumeConfirmation := false } .UPTREND ≠ 1/2 + 1/5
    ∧ calcSignalStrength
        { direction := .BEARISH, strength := 1/2, volumeConfirmation := false } .DOWNTREND = 1/2
    ∧ pyInStr (dirChars .BULLISH) (trendChars .UPTREND) = false
    ∧ pyInStr (dirChars .BEARISH) (trendChars .DOWNTREND) = false := by
  with_unfolding_all decide

/-- C7 (amended): `calculate_position_size` is monotonically non-decreasing
in capital (for non-negative capital, positive entry price, non-negative
resolved risk fraction and a max-position-size fraction in [0, 1]), it is
non-increasing in `|entryPrice − stopLoss|` over stops with positive price
risk, and it returns 0 whenever the entry price equals the stop price.
(The unrestricted non-increase of the original claim fails at zero price
risk, where the size is 0 — see the counterexample.) -/
theorem C7_position_size_monotonicity (cfg : RiskConfig) (riskOpt : Option ℚ)
    (c c1 c2 entry stop stop1 stop2 x : ℚ)
    (hr : 0 ≤ pyOrQ riskOpt cfg.riskPerTrade)
    (hm0 : 0 ≤ cfg.maxPositionSize) (hm1 : cfg.maxPositionSize ≤ 1) (he : 0 < entry) :
    (0 ≤ c1 → c1 ≤ c2 →
      calculate_position_size cfg c1 entry stop riskOpt ≤
        calculate_position_size cfg c2 entry stop riskOpt)
    ∧ (0 ≤ c → 0 < |entry - stop1| → |entry - stop1| ≤ |entry - stop2| →
      calculate_position_size cfg c entry stop2 riskOpt ≤
        calculate_position_size cfg c entry stop1 riskOpt)
    ∧ calculate_position_size cfg c x x riskOpt = 0 := by
  refine ⟨?_, ?_, ?_⟩
  · intro hc1 hc12
    by_cases hpr : |entry - stop| ≤ 0
    · unfold calculate_position_size
      rw [if_pos hpr, if_pos hpr]
    · rw [calculate_position_size_eq cfg c1 entry stop riskOpt hc1 he hm1 hpr,
          calculate_position_size_eq cfg c2 entry stop riskOpt (hc1.trans hc12) he hm1 hpr]
      push_neg at hpr
      exact min_le_min
        (pyInt_mono (div_le_div_of_nonneg_right
          (mul_le_mul_of_nonneg_right hc12 hr) hpr.le))
        (pyInt_mono (div_le_div_of_nonneg_right
          (mul_le_mul_of_nonneg_right hc12 hm0) he.le))
  · intro hc h1 h12
    have hpr1 : ¬(|entry - stop1| ≤ 0) := not_le.mpr h1
    have hpr2 : ¬(|entry - stop2| ≤ 0) := not_le.mpr (lt_of_lt_of_le h1 h12)
    rw [calculate_position_size_eq cfg c entry stop2 riskOpt hc he hm1 hpr2,
        calculate_position_size_eq cfg c entry stop1 riskOpt hc he hm1 hpr1]
    refine min_le_min (pyInt_mono ?_) (le_refl _)
    exact div_le_div_of_nonneg_left (mul_nonneg hc hr) h1 h12
  · unfold calculate_position_size
    rw [if_pos (by simp)]

/-- C7 counterexample: with the default configuration, the position size at
zero price risk (entry = stop = 100) is 0, while at the larger distance
|100 − 99| = 1 it is 30 — so the size is not non-increasing in
`|entryPrice − stopPrice|` over the full domain, contradicting the claim
as stated (which simultaneously demands `positionSize(c, x, x) = 0`). -/
theorem C7_cex_not_nonincreasing :
    |(100 : ℚ) - 100| ≤ |(100 : ℚ) - 99|
    ∧ calculate_position_size defaultRiskConfig 10000 100 100 none <
        calculate_position_size defaultRiskConfig 10000 100 99 none := by
  with_unfolding_all decide

/-- C7 witness: the amended monotonicity at concrete inputs — capital
5000 ≤ 10000 gives sizes 15 ≤ 30 at entry 100 / stop 95; price risk
1 = |100 − 99| ≤ |100 − 90| = 10 gives sizes 20 ≤ 30; entry = stop = 7
gives size 0. -/
theorem C7_witness :
    calculate_position_size defaultRiskConfig 5000 100 95 none ≤
      calculate_position_size defaultRiskConfig 10000 100 95 none
    ∧ calculate_position_size defaultRiskConfig 10000 100 90 none ≤
        calculate_position_size defaultRiskConfig 10000 100 99 none
    ∧ calculate_position_size defaultRiskConfig 10000 7 7 none = 0 := by
  have h := C7_position_size_monotonicity defaultRiskConfig none 10000 5000 10000 100 95 99 90 7
    (by with_unfolding_all decide) (by with_unfolding_all decide)
    (by with_unfolding_all decide) (by with_unfolding_all decide)
  exact ⟨h.1 (by with_unfolding_all decide) (by with_unfolding_all decide),
         h.2.1 (by with_unfolding_all decide) (by with_unfolding_all decide)
           (by with_unfolding_all decide),
         h.2.2⟩

/-- C9: `validate_trade` merges its `current_positions` argument with the
internal registry by Python truthiness (`current_positions or
self.positions`), so an explicitly empty list falls back to the registry:
whenever the registry holds at least `max_positions` positions,
`validate_trade(signal, capital, [])` rejects with the positions-exceeded
reason regardless of the signal and capital. -/
theorem C9_empty_positions_falls_back (cfg : RiskConfig) (selfPositions : List Position)
    (signal : TradeSignal) (capital : ℚ)
    (h : cfg.maxPositions ≤ selfPositions.length) :
    validate_trade cfg selfPositions signal capital (some []) =
      (false, .maxPositionsReached) := by
  unfold validate_trade
  have hp : pyOrList (some []) selfPositions = selfPositions := rfl
  rw [hp, if_pos h]

/-- C9 witness: a registry of three positions with the default
configuration (max 3) rejects a trade validated against an explicitly
empty position list. -/
theorem C9_witness :
    validate_trade defaultRiskConfig threePositions
      { price := 100, stopLoss := 95, takeProfit := 110 } 10000 (some []) =
      (false, .maxPositionsReached) :=
  C9_empty_positions_falls_back defaultRiskConfig threePositions
    { price := 100, stopLoss := 95, takeProfit := 110 } 10000 (by with_unfolding_all decide)

/-- C8: `validate_trade` runs its checks in the fixed source order —
max positions, positive computed size, portfolio risk, risk/reward — and
returns the reason of the first failing check, validating only when all
pass; in particular, with three pre-existing positions and the default
`max_positions = 3` it always rejects with the positions-exceeded reason,
regardless of the signal's contents. -/
theorem C8_validate_trade_first_failure (cfg : RiskConfig) (selfPositions : List Position)
    (signal : TradeSignal) (capital : ℚ) (currentPositions : Option (List Position)) :
    ((cfg.maxPositions ≤ (pyOrList currentPositions selfPositions).length →
        validate_trade cfg selfPositions signal capital currentPositions =
          (false, .maxPositionsReached))
    ∧ ((pyOrList currentPositions selfPositions).length < cfg.maxPositions →
        calculate_position_size cfg capital signal.price signal.stopLoss none ≤ 0 →
        validate_trade cfg selfPositions signal capital currentPositions =
          (false, .insufficientCapital))
    ∧ ((pyOrList currentPositions selfPositions).length < cfg.maxPositions →
        0 < calculate_position_size cfg capital signal.price signal.stopLoss none →
        cfg.maxPortfolioRisk <
          calcPortfolioRisk (pyOrList currentPositions selfPositions) capital +
            cfg.riskPerTrade →
        validate_trade cfg selfPositions signal capital currentPositions =
          (false, .portfolioRiskExceeded))
    ∧ ((pyOrList currentPositions selfPositions).length < cfg.maxPositions →
        0 < calculate_position_size cfg capital signal.price signal.stopLoss none →
        ¬(cfg.maxPortfolioRisk <
            calcPortfolioRisk (pyOrList currentPositions selfPositions) capital +
              cfg.riskPerTrade) →
        0 < |signal.price - signal.stopLoss| →
        |signal.takeProfit - signal.price| / |signal.price - signal.stopLoss| <
          cfg.takeProfitRatio →
        validate_trade cfg selfPositions signal capital currentPositions =
          (false, .riskRewardBelowMin
            (|signal.takeProfit - signal.price| / |signal.price - signal.stopLoss|)
            cfg.takeProfitRatio))
    ∧ ((pyOrList currentPositions selfPositions).length < cfg.maxPositions →
        0 < calculate_position_size cfg capital signal.price signal.stopLoss none →
        ¬(cfg.maxPortfolioRisk <
            calcPortfolioRisk (pyOrList currentPositions selfPositions) capital +
              cfg.riskPerTrade) →
        ¬(0 < |signal.price - signal.stopLoss| ∧
          |signal.takeProfit - signal.price| / |signal.price - signal.stopLoss| <
            cfg.takeProfitRatio) →
        validate_trade cfg selfPositions signal capital currentPositions =
          (true, .validated)))
    ∧ (∀ l : List Position, 3 ≤ l.length →
        validate_trade defaultRiskConfig selfPositions signal capital (some l) =
          (false, .maxPositionsReached)) := by
  constructor
  · refine ⟨?_, ?_, ?_, ?_, ?_⟩
    · intro h1
      unfold validate_trade
      rw [if_pos h1]
    · intro h1 h2
      unfold validate_trade
      rw [if_neg (not_le.mpr h1)]
      try dsimp only
      rw [if_pos h2]
    · intro h1 h2 h3
      unfold validate_trade
      rw [if_neg (not_le.mpr h1)]
      try dsimp only
      rw [if_neg (not_le.mpr h2)]
      try dsimp only
      rw [if_pos h3]
    · intro h1 h2 h3 h4 h5
      unfold validate_trade
      rw [if_neg (not_le.mpr h1)]
      try dsimp only
      rw [if_neg (not_le.mpr h2)]
      try dsimp only
      rw [if_neg h3]
      try dsimp only
      rw [if_pos ⟨h4, h5⟩]
    · intro h1 h2 h3 h4
      unfold validate_trade
      rw [if_neg (not_le.mpr h1)]
      try dsimp only
      rw [if_neg (not_le.mpr h2)]
      try dsimp only
      rw [if_neg h3]
      try dsimp only
      rw [if_neg h4]
  · intro l hl
    have hne : l.isEmpty = false := by
      cases l with
      | nil => simp at hl
      | cons a as => rfl
    unfold validate_trade
    have hp : pyOrList (some l) selfPositions = l := by
      simp [pyOrList, hne]
    rw [hp]
    try dsimp only
    rw [if_pos (show defaultRiskConfig.maxPositions ≤ l.length from hl)]

/-- C8 witness: three pre-existing positions with the default
configuration reject even a degenerate signal (all prices zero) with the
positions-exceeded reason. -/
theorem C8_witness :
    validate_trade defaultRiskConfig []
      { price := 0, stopLoss := 0, takeProfit := 0 } 5 (some threePositions) =
      (false, .maxPositionsReached) :=
  (C8_validate_trade_first_failure defaultRiskConfig []
    { price := 0, stopLoss := 0, takeProfit := 0 } 5 (some threePositions)).2
    threePositions (by with_unfolding_all decide)

/-- C4: in `run_backtest`, opening a position debits cash by the full
entry cost `quantity × (signalPrice × (1 + slippage)) + commission`, while
closing it credits only the realized P&L minus commission (the same
accounting for Stop Loss, Take Profit and End-of-backtest closes, all of
which use `closePosition`).  Hence over an open/close round trip the cash
ends at `initial − quantity × entryPrice − 2 × commission + pnl`: the
entry principal is never credited back, so even a break-even trade
(pnl = 0) permanently loses the entry cost, and with no position left the
recorded total equity equals that diminished cash. -/
theorem C4_entry_principal_never_credited (commission slippage capital : ℚ)
    (signal : Signal) (positionSize : ℤ) (entryDate exitDate : ℕ)
    (currentPrice : ℚ) (reason : ExitReason) :
    (openPosition commission slippage capital signal positionSize entryDate).1
      = capital - ((positionSize : ℚ) * (signal.price * (1 + slippage)) + commission)
    ∧ (openPosition commission slippage capital signal positionSize entryDate).2.entryPrice
      = signal.price * (1 + slippage)
    ∧ (closePosition commission slippage
        (openPosition commission slippage capital signal positionSize entryDate).1
        (openPosition commission slippage capital signal positionSize entryDate).2
        currentPrice exitDate reason).1
      = capital - (positionSize : ℚ) * (signal.price * (1 + slippage)) - 2 * commission
        + (closePosition commission slippage
            (openPosition commission slippage capital signal positionSize entryDate).1
            (openPosition commission slippage capital signal positionSize entryDate).2
            currentPrice exitDate reason).2.pnl
    ∧ ((closePosition commission slippage
          (openPosition commission slippage capital signal positionSize entryDate).1
          (openPosition commission slippage capital signal positionSize entryDate).2
          currentPrice exitDate reason).2.pnl = 0 →
        (closePosition commission slippage
          (openPosition commission slippage capital signal positionSize entryDate).1
          (openPosition commission slippage capital signal positionSize entryDate).2
          currentPrice exitDate reason).1
        = capital - (positionSize : ℚ) * (signal.price * (1 + slippage)) - 2 * commission) := by
  refine ⟨?_, ?_, ?_, ?_⟩
  · rfl
  · rfl
  · unfold closePosition openPosition
    dsimp only
    ring
  · intro hzero
    unfold closePosition openPosition at hzero ⊢
    dsimp only at hzero ⊢
    rw [hzero]
    ring

set_option maxRecDepth 100000 in
/-- C4 witness: a BULLISH position of 20 units entered from signal price
100 with slippage 0.001 and commission 2, closed at the same market price
100 (so the P&L is exactly 0), leaves cash at
10000 − 20 × 100.1 − 4 = 7994: the entry principal is gone. -/
theorem C4_witness :
    (closePosition 2 (1/1000)
      (openPosition 2 (1/1000) 10000
        { type := .FVG_ENTRY, direction := .BULLISH, price := 100, stopLoss := 95
          takeProfit := 110, strength := 1, timestamp := 0, pattern := .FairValueGap } 20 0).1
      (openPosition 2 (1/1000) 10000
        { type := .FVG_ENTRY, direction := .BULLISH, price := 100, stopLoss := 95
          takeProfit := 110, strength := 1, timestamp := 0, pattern := .FairValueGap } 20 0).2
      100 1 .takeProfitHit).1 = 7994 := by
  have h := C4_entry_principal_never_credited 2 (1/1000) 10000
    { type := .FVG_ENTRY, direction := .BULLISH, price := 100, stopLoss := 95
      takeProfit := 110, strength := 1, timestamp := 0, pattern := .FairValueGap }
    20 0 1 100 .takeProfitHit
  rw [h.2.2.2 (by with_unfolding_all rfl)]
  with_unfolding_all rfl

/-- C6: at an interior index `i` (1 ≤ i ≤ n−2) of a series of at least
three bars, the loop body of `detect_fair_value_gaps` emits a bullish gap
if and only if `bar[i-1].low > bar[i+1].high`, the middle candle closed
above its open, and the gap size `(low[i-1] − high[i+1]) / high[i+1]` is
at least the configured minimum; the emitted pattern's entry price is
`bar[i+1].high`, and every emission of the loop body lands in the list
returned by `detect_fair_value_gaps`. -/
theorem C6_bullish_fvg_characterization (minGapSize : ℚ) (bars : List Bar) (i : ℕ)
    (h3 : 3 ≤ bars.length) (h1 : 1 ≤ i) (h2 : i + 2 ≤ bars.length) :
    ((∃ p, fvgAt minGapSize bars i = some p ∧ p.direction = .BULLISH) ↔
      ((bars.getD (i + 1) default).high < (bars.getD (i - 1) default).low
        ∧ (bars.getD i default).open_ < (bars.getD i default).close
        ∧ minGapSize ≤
            ((bars.getD (i - 1) default).low - (bars.getD (i + 1) default).high) /
              (bars.getD (i + 1) default).high))
    ∧ (∀ p, fvgAt minGapSize bars i = some p → p.direction = .BULLISH →
        p.entryPrice = (bars.getD (i + 1) default).high)
    ∧ (∀ p, fvgAt minGapSize bars i = some p →
        p ∈ detect_fair_value_gaps minGapSize bars) := by
  refine ⟨?_, ?_, ?_⟩
  · unfold fvgAt
    dsimp only
    constructor
    · rintro ⟨p, hp, hdir⟩
      split at hp
      · rename_i hcond
        split at hp
        · rename_i hgap
          exact ⟨hcond.1, hcond.2, hgap⟩
        · simp at hp
      · split at hp
        · split at hp
          · obtain rfl := Option.some.inj hp
            simp at hdir
          · simp at hp
        · simp at hp
    · rintro ⟨ha, hb, hc⟩
      rw [if_pos ⟨ha, hb⟩, if_pos hc]
      exact ⟨_, rfl, rfl⟩
  · intro p hp hdir
    unfold fvgAt at hp
    dsimp only at hp
    split at hp
    · split at hp
      · obtain rfl := Option.some.inj hp
        rfl
      · simp at hp
    · split at hp
      · split at hp
        · obtain rfl := Option.some.inj hp
          simp at hdir
        · simp at hp
      · simp at hp
  · intro p hp
    unfold detect_fair_value_gaps
    rw [if_neg (not_lt.mpr h3)]
    refine List.mem_filterMap.mpr ⟨i, ?_, hp⟩
    rw [List.mem_range']
    refine ⟨i - 1, ?_, ?_⟩
    · omega
    · omega

/-- C6 witness: the specification's own example — previous low 110,
bullish middle candle, next high 100, gap size 0.1 ≥ 0.001 — emits a
bullish gap whose entry price is 100. -/
theorem C6_witness :
    (fvgAt (1/1000) gapExampleBars 1).map (fun p => (p.direction, p.entryPrice)) =
      some (.BULLISH, 100) := by
  obtain ⟨hiff, hentry, _⟩ :=
    C6_bullish_fvg_characterization (1/1000) gapExampleBars 1
      (by decide) (by decide) (by decide)
  obtain ⟨p, hp, hdir⟩ := hiff.mpr (by with_unfolding_all decide)
  rw [hp]
  have he2 : p.entryPrice = 100 := by
    rw [hentry p hp hdir]
    with_unfolding_all rfl
  simp [hdir, he2]

theorem buildFvgSignal_fields {trend : Trend} {now : ℕ} {fvg : FVGPattern} {s : Signal}
    (h : buildFvgSignal trend now fvg = some s) :
    s.strength = calcSignalStrength
      { direction := fvg.direction, strength := fvg.strength
        volumeConfirmation := false } trend
    ∧ s.pattern = .FairValueGap := by
  unfold buildFvgSignal at h
  split at h
  · obtain rfl := Option.some.inj h
    exact ⟨rfl, rfl⟩
  · simp at h

theorem buildOrderBlockSignal_fields {trend : Trend} {now : ℕ} {ob : OrderBlockPattern}
    {s : Signal} (h : buildOrderBlockSignal trend now ob = some s) :
    s.strength = calcSignalStrength
      { direction := ob.direction, strength := ob.strength
        volumeConfirmation := false } trend
    ∧ s.pattern = .OrderBlock := by
  unfold buildOrderBlockSignal at h
  split at h
  · obtain rfl := Option.some.inj h
    exact ⟨rfl, rfl⟩
  · simp at h

theorem ne_nil_of_isEmpty_false {α : Type} {l : List α} (h : l.isEmpty = false) :
    l ≠ [] := by
  cases l <;> simp_all

theorem headD_mem {α : Type} [Inhabited α] {l : List α} (h : l ≠ []) :
    l.headD default ∈ l := by
  cases l with
  | nil => exact absurd rfl h
  | cons a t => simp [List.headD]

/-- C3 (amended): for any input whose closes are positive and a
non-negative configured minimum gap size, every gap pattern, every order
block and every generated signal has strength in [0, 1]; liquidity-pool
patterns carry strength equal to their match count divided by 10 (at
least 0.2), which is NOT capped at 1 — it can reach 4.0, as the
counterexample shows. -/
theorem C3_strength_bounds (minGapSize tolerance : ℚ) (obMinStrength now : ℕ)
    (bars : List Bar) (hmg : 0 ≤ minGapSize) (hclose : ∀ b ∈ bars, 0 < b.close) :
    (∀ p ∈ detect_fair_value_gaps minGapSize bars, 0 ≤ p.strength ∧ p.strength ≤ 1)
    ∧ (∀ p ∈ detect_order_blocks obMinStrength bars, 0 ≤ p.strength ∧ p.strength ≤ 1)
    ∧ (∀ s ∈ generate_signals minGapSize obMinStrength bars now,
        0 ≤ s.strength ∧ s.strength ≤ 1)
    ∧ (∀ p ∈ detect_liquidity_pools tolerance bars,
        p.strength = ((p.touches - 1 : ℕ) : ℚ) / 10 ∧ 1/5 ≤ p.strength) := by
  refine ⟨fun p hp => fvg_strength_bounds hmg hp,
          fun p hp => ob_strength_bounds hclose hp, ?_,
          fun p hp => liq_pool_strength hp⟩
  intro s hs
  unfold generate_signals at hs
  dsimp only at hs
  rw [mem_sortByStrengthDesc] at hs
  rcases List.mem_append.mp hs with h | h
  · obtain ⟨p, hpmem, hps⟩ := List.mem_filterMap.mp h
    rw [(buildFvgSignal_fields hps).1]
    exact calcSignalStrength_bounds _ _ (fvg_strength_bounds hmg hpmem).1
  · obtain ⟨p, hpmem, hps⟩ := List.mem_filterMap.mp h
    rw [(buildOrderBlockSignal_fields hps).1]
    exact calcSignalStrength_bounds _ _ (ob_strength_bounds hclose hpmem).1

set_option maxRecDepth 100000 in
/-- C3 counterexample: fifty identical bars (satisfying the Bar
invariants, with positive closes) make every liquidity-pool candidate
match all forty neighbours, so the first emitted pool has strength
40 / 10 = 4 > 1, refuting the claim that every emitted pattern's strength
lies in [0, 1]. -/
theorem C3_cex_liquidity_strength_four :
    barInvariants constBars50 = true
    ∧ constBars50.all (fun b => decide (0 < b.close)) = true
    ∧ ((detect_liquidity_pools (1/20) constBars50).headD default).strength = 4
    ∧ (detect_liquidity_pools (1/20) constBars50).headD default ∈
        detect_liquidity_pools (1/20) constBars50
    ∧ ¬((detect_liquidity_pools (1/20) constBars50).headD default).strength ≤ 1 := by
  refine of_decide_eq_true ?_
  with_unfolding_all rfl

set_option maxRecDepth 100000 in
/-- C3 witness: the amended bounds evaluated at concrete inputs — the
gap emitted by the specification's example series has strength within
[0, 1], and the constant-series liquidity pool has strength ≥ 0.2. -/
theorem C3_witness :
    (0 ≤ ((detect_fair_value_gaps (1/1000) gapExampleBars).headD default).strength
      ∧ ((detect_fair_value_gaps (1/1000) gapExampleBars).headD default).strength ≤ 1)
    ∧ 1/5 ≤ ((detect_liquidity_pools (1/20) constBars50).headD default).strength := by
  constructor
  · exact (C3_strength_bounds (1/1000) (1/20) 3 0 gapExampleBars
      (by norm_num) (by with_unfolding_all decide)).1 _
      (headD_mem (ne_nil_of_isEmpty_false (by with_unfolding_all rfl)))
  · exact ((C3_strength_bounds (1/1000) (1/20) 3 0 constBars50
      (by norm_num) (by with_unfolding_all decide)).2.2.2 _
      (headD_mem (ne_nil_of_isEmpty_false (by with_unfolding_all rfl)))).2

/-- C10: `generate_signals` builds signals only from Fair Value Gap and
Order Block detections — every emitted signal's `pattern` label is one of
those two; no signal ever carries the liquidity-pool label. -/
theorem C10_no_liquidity_signals (minGapSize : ℚ) (obMinStrength : ℕ)
    (bars : List Bar) (now : ℕ) :
    ∀ s ∈ generate_signals minGapSize obMinStrength bars now,
      s.pattern = .FairValueGap ∨ s.pattern = .OrderBlock := by
  intro s hs
  unfold generate_signals at hs
  dsimp only at hs
  rw [mem_sortByStrengthDesc] at hs
  rcases List.mem_append.mp hs with h | h
  · obtain ⟨p, _, hps⟩ := List.mem_filterMap.mp h
    exact Or.inl (buildFvgSignal_fields hps).2
  · obtain ⟨p, _, hps⟩ := List.mem_filterMap.mp h
    exact Or.inr (buildOrderBlockSignal_fields hps).2

set_option maxRecDepth 1000000 in
/-- C10 witness: the one signal generated on the gap-bearing 103-bar
series carries the Fair Value Gap label — in particular not the
liquidity-pool label. -/
theorem C10_witness :
    ((generate_signals (1/1000) 3 lookaheadBarsB 0).headD default).pattern = .FairValueGap
    ∨ ((generate_signals (1/1000) 3 lookaheadBarsB 0).headD default).pattern = .OrderBlock :=
  C10_no_liquidity_signals (1/1000) 3 lookaheadBarsB 0 _
    (headD_mem (ne_nil_of_isEmpty_false (by with_unfolding_all rfl)))

theorem buildFvgSignal_setTs (trend : Trend) (now : ℕ) (fvg : FVGPattern) :
    buildFvgSignal trend now fvg = (buildFvgSignal trend 0 fvg).map (setTs now) := by
  unfold buildFvgSignal
  split <;> rfl

theorem buildOrderBlockSignal_setTs (trend : Trend) (now : ℕ) (ob : OrderBlockPattern) :
    buildOrderBlockSignal trend now ob = (buildOrderBlockSignal trend 0 ob).map (setTs now) := by
  unfold buildOrderBlockSignal
  split <;> rfl

theorem insertByStrengthDesc_setTs (now : ℕ) (s : Signal) (l : List Signal) :
    insertByStrengthDesc (setTs now s) (l.map (setTs now))
      = (insertByStrengthDesc s l).map (setTs now) := by
  induction l with
  | nil => rfl
  | cons t ts ih =>
      simp only [List.map_cons, insertByStrengthDesc]
      by_cases h : t.strength < s.strength
      · rw [if_pos h, if_pos (show (setTs now t).strength < (setTs now s).strength from h)]
        rfl
      · rw [if_neg h, if_neg (show ¬(setTs now t).strength < (setTs now s).strength from h)]
        rw [List.map_cons, ih]

theorem sortFoldl_setTs (now : ℕ) (l acc : List Signal) :
    (l.map (setTs now)).foldl (fun a s => insertByStrengthDesc s a) (acc.map (setTs now))
      = (l.foldl (fun a s => insertByStrengthDesc s a) acc).map (setTs now) := by
  induction l generalizing acc with
  | nil => rfl
  | cons t ts ih =>
      simp only [List.map_cons, List.foldl_cons]
      rw [insertByStrengthDesc_setTs, ih]

theorem sortByStrengthDesc_setTs (now : ℕ) (l : List Signal) :
    sortByStrengthDesc (l.map (setTs now)) = (sortByStrengthDesc l).map (setTs now) := by
  unfold sortByStrengthDesc
  simpa using sortFoldl_setTs now l []

theorem generate_signals_setTs (minGapSize : ℚ) (obMinStrength : ℕ)
    (agentBars : List Bar) (now : ℕ) :
    generate_signals minGapSize obMinStrength agentBars now
      = (generate_signals minGapSize obMinStrength agentBars 0).map (setTs now) := by
  unfold generate_signals
  dsimp only
  rw [← sortByStrengthDesc_setTs]
  congr 1
  rw [List.map_append, List.map_filterMap, List.map_filterMap]
  congr 1
  · exact List.filterMap_congr fun p _ => buildFvgSignal_setTs _ now p
  · exact List.filterMap_congr fun p _ => buildOrderBlockSignal_setTs _ now p

theorem stepBar_now (commission slippage minGapSize : ℚ) (obMinStrength : ℕ)
    (agentBars dfBars : List Bar) (now₁ now₂ : ℕ) (st : BTState) (i : ℕ) :
    stepBar commission slippage minGapSize obMinStrength agentBars dfBars now₁ st i
      = stepBar commission slippage minGapSize obMinStrength agentBars dfBars now₂ st i := by
  unfold stepBar
  dsimp only
  rw [generate_signals_setTs minGapSize obMinStrength agentBars now₁,
      generate_signals_setTs minGapSize obMinStrength agentBars now₂,
      List.head?_map, List.head?_map]
  cases (generate_signals minGapSize obMinStrength agentBars 0).head? with
  | none => rfl
  | some s => rfl

/-- C5: the backtest is deterministic — its only input besides the bar
series and the numeric configuration is the wall-clock reading
`datetime.now()` taken inside `generate_signals`, and the entire result
record (final capital, trade log and equity curve) is invariant under it:
two runs over identical bars and configuration, at any two clock readings,
return equal results. -/
theorem C5_backtest_determinism (initialCapital commission slippage minGapSize : ℚ)
    (obMinStrength : ℕ) (dfBars agentBars : List Bar) (now₁ now₂ : ℕ) :
    run_backtest initialCapital commission slippage minGapSize obMinStrength
        dfBars agentBars now₁
      = run_backtest initialCapital commission slippage minGapSize obMinStrength
        dfBars agentBars now₂ := by
  unfold run_backtest
  dsimp only
  rw [show stepBar commission slippage minGapSize obMinStrength agentBars dfBars now₁
        = stepBar commission slippage minGapSize obMinStrength agentBars dfBars now₂ from
      funext fun st => funext fun i =>
        stepBar_now commission slippage minGapSize obMinStrength agentBars dfBars now₁ now₂ st i]

set_option maxRecDepth 1000000 in
/-- C1: refuted — the signals the backtest loop consumes at bar index `i`
do NOT depend only on bars `0..i`. The loop's step 3 calls
`self.agent.generate_signals(symbol)`, which re-fetches the agent's full
series; two 103-bar series that agree on every index up to and including
101 (differing only at index 102, after the bars being traded at loop
indices 100 and 101) and both satisfy the Bar invariants nevertheless
produce different signal lists — and the two backtests record different
trade logs. -/
theorem C1_lookahead_dependence :
    List.take 102 lookaheadBarsA = List.take 102 lookaheadBarsB
    ∧ barInvariants lookaheadBarsA = true
    ∧ barInvariants lookaheadBarsB = true
    ∧ generate_signals (1/1000) 3 lookaheadBarsA 0
        ≠ generate_signals (1/1000) 3 lookaheadBarsB 0
    ∧ (run_backtest 10000 0 0 (1/1000) 3 lookaheadBarsA lookaheadBarsA 0).map
          BacktestResult.trades
        ≠ (run_backtest 10000 0 0 (1/1000) 3 lookaheadBarsB lookaheadBarsB 0).map
          BacktestResult.trades := by
  refine of_decide_eq_true ?_
  with_unfolding_all rfl
